import Mathlib

/-!
Shallow embedding of `src/src/axolotl/cli/preprocess.py` (`do_cli`), the
dataset-preprocessing coordinator, together with theorems settling the
stated properties of its control flow: template registration dispatch,
default-path fill-in, caching-suppression scope, conditional CSV-to-JSONL
conversion, the optional weight probe, and the terminal success report.

External calls (dataset loaders, the converter, the weight probe) are
modelled as observable events in a trace, with an oracle (`World`)
deciding whether each external call raises.  The run returns the trace of
events together with either the final mutated config or a propagated
error, mirroring Python exception flow via `Except`.
-/

namespace Axolotl

/-- One entry of `cfg.datasets`: a dataset descriptor with a `path` field. -/
structure DatasetConfig where
  path : String
deriving DecidableEq

/-- The fields of the parsed run configuration (`parsed_cfg`) that
`do_cli` reads or mutates.  Optional string fields model Python
attributes that may be `None`. -/
structure RunConfig where
  chat_template : Option String
  default_system_message : Option String
  dataset_prepared_path : Option String
  datasets : List DatasetConfig
  is_preprocess : Bool
  rl : Option String
  base_model : String
  dataset_file : Option String
deriving DecidableEq

/-- The parsed CLI arguments relevant to `do_cli`: the `download` flag of
`PreprocessCliArgs`. -/
structure PreprocessCliArgs where
  download : Bool
deriving DecidableEq

/-- Oracle for the external calls: whether the dataset loader, the
CSV converter, or the weight-resolution probe raises an exception. -/
structure World where
  loaderRaises : Bool
  convertRaises : Bool
  probeRaises : Bool
deriving DecidableEq

/-- Python truthiness of an optional string: `None` and `""` are falsy,
every other string is truthy. -/
def pyTruthy : Option String → Bool
  | none => false
  | some s => !(s == "")

/-- Python `s.endswith(suf)`. -/
def pyEndsWith (s suf : String) : Bool :=
  List.isSuffixOf suf.data s.data

/-- Python `s.rsplit(".", 1)[0]`: everything before the last `.` of `s`,
or `s` unchanged when `s` has no `.`.  Directory components are kept. -/
def pyRsplitDotFirst (s : String) : String :=
  let r := s.data.reverse
  if r.contains '.' then
    String.mk ((r.dropWhile (fun c => !(c == '.'))).drop 1).reverse
  else s

/-- Observable events of one `do_cli` run, in program order. -/
inductive Event where
  | infoLog (msg : String)
  | warnLog (msg : String)
  | registerChatml (msg : Option String)
  | registerLlama3 (msg : Option String)
  | disableCaching
  | loadRLDatasets
  | loadDatasets
  | enableCaching
  | convert (src tgt : String)
  | probeWeights (model : String)
  | successLog (preparedPath : Option String)
deriving DecidableEq

/-- Is this event a chat-template registry call? -/
def isRegisterEvent : Event → Bool
  | .registerChatml _ => true
  | .registerLlama3 _ => true
  | _ => false

/-- Is this event a dataset-loader call? -/
def isLoaderEvent : Event → Bool
  | .loadRLDatasets => true
  | .loadDatasets => true
  | _ => false

/-- Is this event a converter call? -/
def isConvertEvent : Event → Bool
  | .convert _ _ => true
  | _ => false

/-- Is this event a weight-probe call? -/
def isProbeEvent : Event → Bool
  | .probeWeights _ => true
  | _ => false

/-- Modelled from the spec: `DEFAULT_DATASET_PREPARED_PATH` comes from
`axolotl.common.const`, which is not under `src/`; the spec fixes only
that it is "a well-known default constant" used when the user supplies no
`dataset_prepared_path`, so it is modelled here as a fixed non-empty
path constant. -/
def DEFAULT_DATASET_PREPARED_PATH : String := "last_run_prepared"

/-- The chat-template registration block of `do_cli`: exact string match
on `chat_template`, and the default system message is forwarded only when
it is truthy (the `if parsed_cfg.default_system_message:` test). -/
def templateStep (cfg : RunConfig) : List Event :=
  if cfg.chat_template == some "chatml" then
    if pyTruthy cfg.default_system_message then
      [.infoLog ("ChatML set. Adding default system message: " ++
          (cfg.default_system_message.getD "")),
       .registerChatml cfg.default_system_message]
    else
      [.registerChatml none]
  else if cfg.chat_template == some "llama3" then
    if pyTruthy cfg.default_system_message then
      [.infoLog ("LLaMA-3 set. Adding default system message: " ++
          (cfg.default_system_message.getD "")),
       .registerLlama3 cfg.default_system_message]
    else
      [.registerLlama3 none]
  else []

/-- The default-path block of `do_cli`: when `dataset_prepared_path` is
falsy, log a warning and assign the default constant. -/
def defaultPathStep (cfg : RunConfig) : List Event × RunConfig :=
  if pyTruthy cfg.dataset_prepared_path then ([], cfg)
  else
    ([.warnLog ("preprocess CLI called without dataset_prepared_path set, using default path: " ++
        DEFAULT_DATASET_PREPARED_PATH)],
     { cfg with dataset_prepared_path := some DEFAULT_DATASET_PREPARED_PATH })

/-- The body of the `with disable_datasets_caching():` block: dispatch on
the truthiness of `parsed_cfg.rl` to exactly one of the two loaders; the
oracle decides whether the chosen loader raises. -/
def materializeBody (cfg : RunConfig) (w : World) : List Event × Except Unit Unit :=
  if pyTruthy cfg.rl then
    ([.loadRLDatasets], if w.loaderRaises then .error () else .ok ())
  else
    ([.loadDatasets], if w.loaderRaises then .error () else .ok ())

/-- Modelled from the spec: `disable_datasets_caching` lives in
`axolotl.utils.trainer`, which is not under `src/`.  The spec describes it
as a scoped caching-suppression context manager that disables dataset
caching on entry and "guarantees re-enabling caching on all exit paths
(normal return or raised error)", while letting a raised error propagate. -/
def disable_datasets_caching {α : Type} (body : List Event × Except Unit α) :
    List Event × Except Unit α :=
  (.disableCaching :: body.1 ++ [.enableCaching], body.2)

/-- The target path the code computes for the CSV conversion:
`parsed_cfg.dataset_prepared_path + "/" + path.rsplit(".", 1)[0] + ".jsonl"`. -/
def codeTargetPath (prepared src : String) : String :=
  prepared ++ "/" ++ pyRsplitDotFirst src ++ ".jsonl"

/-- The conditional CSV conversion block of `do_cli`: guarded by the
truthiness of `dataset_prepared_path` and `datasets[0].path.endswith(".csv")`
(indexing an empty `datasets` list raises, as in Python); on trigger it
computes the target path from `rsplit(".", 1)[0]` and sets
`parsed_cfg.dataset_file` to it. -/
def conversionStep (cfg : RunConfig) (w : World) : List Event × Except Unit RunConfig :=
  if pyTruthy cfg.dataset_prepared_path then
    match cfg.datasets with
    | [] => ([], .error ())
    | d :: _ =>
      if pyEndsWith d.path ".csv" then
        let jsonl_file := codeTargetPath (cfg.dataset_prepared_path.getD "") d.path
        if w.convertRaises then
          ([.infoLog ("Converting " ++ d.path ++ " to " ++ jsonl_file ++ "..."),
            .convert d.path jsonl_file], .error ())
        else
          ([.infoLog ("Converting " ++ d.path ++ " to " ++ jsonl_file ++ "..."),
            .convert d.path jsonl_file],
           .ok { cfg with dataset_file := some jsonl_file })
      else ([], .ok cfg)
  else ([], .ok cfg)

/-- The optional weight probe of `do_cli`: only when `download` is set,
call `AutoModelForCausalLM.from_pretrained` under empty weights inside
`try: ... except Exception: pass`, so a raised error is swallowed. -/
def probeStep (cfg : RunConfig) (cli : PreprocessCliArgs) (w : World) :
    List Event × Except Unit Unit :=
  if cli.download then
    let attempt : Except Unit Unit := if w.probeRaises then .error () else .ok ()
    ([.probeWeights cfg.base_model],
     match attempt with
     | .error _ => .ok ()
     | .ok _ => .ok ())
  else ([], .ok ())

/-- The config as it stands when dataset materialization begins: after the
`is_preprocess` flag is set and the default prepared path is filled in. -/
def preparedCfg (cfg : RunConfig) : RunConfig :=
  (defaultPathStep { cfg with is_preprocess := true }).2

/-- The coordinator `do_cli` after config and CLI parsing: set
`is_preprocess`, register templates, fill the default prepared path, run
dataset materialization inside the caching-suppression scope, run the
conditional CSV conversion, run the optional weight probe, and emit the
terminal success report.  A propagated error carries the trace emitted so
far. -/
def do_cli (cfg0 : RunConfig) (cli : PreprocessCliArgs) (w : World) :
    List Event × Except Unit RunConfig :=
  let c1 : RunConfig := { cfg0 with is_preprocess := true }
  let evT := templateStep c1
  let evD := (defaultPathStep c1).1
  let c2 := preparedCfg cfg0
  let evM := (disable_datasets_caching (materializeBody c2 w)).1
  match (disable_datasets_caching (materializeBody c2 w)).2 with
  | .error e => (evT ++ evD ++ evM, .error e)
  | .ok _ =>
    let evC := (conversionStep c2 w).1
    match (conversionStep c2 w).2 with
    | .error e => (evT ++ evD ++ evM ++ evC, .error e)
    | .ok c3 =>
      let evP := (probeStep c3 cli w).1
      match (probeStep c3 cli w).2 with
      | .error e => (evT ++ evD ++ evM ++ evC ++ evP, .error e)
      | .ok _ =>
        (evT ++ evD ++ evM ++ evC ++ evP ++ [.successLog c3.dataset_prepared_path],
         .ok c3)

/-- The loader event `do_cli` dispatches to for a given config. -/
def loaderEvent (cfg : RunConfig) : Event :=
  if pyTruthy cfg.rl then .loadRLDatasets else .loadDatasets

/-- Follows the spec's words, for comparison with the code's target-path
computation: the "stem" of a path is its base name (the part after the
last `/`) without its extension. -/
def specStem (p : String) : String :=
  pyRsplitDotFirst (String.mk (p.data.reverse.takeWhile (fun c => !(c == '/'))).reverse)

/-- Follows the spec's words, for comparison with the code's target-path
computation: the conversion target is the source file's stem with a
`.jsonl` extension placed directly under `dataset_prepared_path`. -/
def specTargetPath (prepared p : String) : String :=
  prepared ++ "/" ++ specStem p ++ ".jsonl"

instance instDecidableEqExcept {e a : Type} [DecidableEq e] [DecidableEq a] :
    DecidableEq (Except e a) := fun x y =>
  match x, y with
  | .ok u, .ok v =>
    if h : u = v then .isTrue (by rw [h]) else .isFalse (by simp [h])
  | .error u, .error v =>
    if h : u = v then .isTrue (by rw [h]) else .isFalse (by simp [h])
  | .ok _, .error _ => .isFalse (fun h => by cases h)
  | .error _, .ok _ => .isFalse (fun h => by cases h)

/-- A concrete run configuration whose first dataset is a CSV file. -/
def cfgCsv : RunConfig :=
  { chat_template := none, default_system_message := none,
    dataset_prepared_path := some "prep", datasets := [⟨"train.csv"⟩],
    is_preprocess := false, rl := none, base_model := "m", dataset_file := none }

/-- A concrete run configuration whose first dataset is a CSV file inside
a subdirectory. -/
def cfgCsvSubdir : RunConfig :=
  { chat_template := none, default_system_message := none,
    dataset_prepared_path := some "prep", datasets := [⟨"data/train.csv"⟩],
    is_preprocess := false, rl := none, base_model := "m", dataset_file := none }

/-- A concrete run configuration with `chat_template = "chatml"` and an
empty (present but falsy) default system message. -/
def cfgChatmlEmptyMsg : RunConfig :=
  { chat_template := some "chatml", default_system_message := some "",
    dataset_prepared_path := some "prep", datasets := [⟨"train.jsonl"⟩],
    is_preprocess := false, rl := none, base_model := "m", dataset_file := none }

/-- A concrete run configuration with no prepared path and a non-CSV
dataset. -/
def cfgNoPrepared : RunConfig :=
  { chat_template := none, default_system_message := none,
    dataset_prepared_path := none, datasets := [⟨"train.jsonl"⟩],
    is_preprocess := false, rl := some "dpo", base_model := "m", dataset_file := none }

/-- The oracle in which no external call raises. -/
def calmWorld : World :=
  { loaderRaises := false, convertRaises := false, probeRaises := false }

/-- The oracle in which the weight probe raises. -/
def probeFailWorld : World :=
  { loaderRaises := false, convertRaises := false, probeRaises := true }

/-! ## Step-characterization lemmas -/

theorem materializeBody_fst (c : RunConfig) (w : World) :
    (materializeBody c w).1 = [loaderEvent c] := by
  unfold materializeBody loaderEvent
  by_cases h : pyTruthy c.rl <;> simp [h]

theorem materializeBody_snd (c : RunConfig) (w : World) :
    (materializeBody c w).2 = if w.loaderRaises then Except.error () else Except.ok () := by
  unfold materializeBody
  by_cases h : pyTruthy c.rl <;> simp [h]

theorem probeStep_fst (c : RunConfig) (cli : PreprocessCliArgs) (w : World) :
    (probeStep c cli w).1 =
      if cli.download then [Event.probeWeights c.base_model] else [] := by
  unfold probeStep
  by_cases h : cli.download <;> simp [h]

theorem probeStep_snd (c : RunConfig) (cli : PreprocessCliArgs) (w : World) :
    (probeStep c cli w).2 = Except.ok () := by
  unfold probeStep
  by_cases h : cli.download <;> by_cases hp : w.probeRaises <;> simp [h, hp]

theorem defaultPathStep_fst (c : RunConfig) :
    (defaultPathStep c).1 =
      if pyTruthy c.dataset_prepared_path then []
      else [Event.warnLog ("preprocess CLI called without dataset_prepared_path set, using default path: " ++
        DEFAULT_DATASET_PREPARED_PATH)] := by
  unfold defaultPathStep
  by_cases h : pyTruthy c.dataset_prepared_path <;> simp [h]

theorem preparedCfg_eq (cfg : RunConfig) :
    preparedCfg cfg = { cfg with is_preprocess := true } ∨
    preparedCfg cfg =
      { cfg with is_preprocess := true, dataset_prepared_path := some DEFAULT_DATASET_PREPARED_PATH } := by
  unfold preparedCfg defaultPathStep
  by_cases h : pyTruthy ({ cfg with is_preprocess := true } : RunConfig).dataset_prepared_path <;>
    simp [h]

theorem preparedCfg_rl (cfg : RunConfig) : (preparedCfg cfg).rl = cfg.rl := by
  rcases preparedCfg_eq cfg with h | h <;> rw [h]

theorem preparedCfg_datasets (cfg : RunConfig) :
    (preparedCfg cfg).datasets = cfg.datasets := by
  rcases preparedCfg_eq cfg with h | h <;> rw [h]

theorem preparedCfg_base_model (cfg : RunConfig) :
    (preparedCfg cfg).base_model = cfg.base_model := by
  rcases preparedCfg_eq cfg with h | h <;> rw [h]

theorem preparedCfg_dataset_file (cfg : RunConfig) :
    (preparedCfg cfg).dataset_file = cfg.dataset_file := by
  rcases preparedCfg_eq cfg with h | h <;> rw [h]

theorem preparedCfg_chat_template (cfg : RunConfig) :
    (preparedCfg cfg).chat_template = cfg.chat_template := by
  rcases preparedCfg_eq cfg with h | h <;> rw [h]

theorem preparedCfg_truthy (cfg : RunConfig) :
    pyTruthy (preparedCfg cfg).dataset_prepared_path = true := by
  unfold preparedCfg defaultPathStep
  split
  · rename_i h
    exact h
  · rfl

theorem preparedCfg_kept (cfg : RunConfig)
    (h : pyTruthy cfg.dataset_prepared_path = true) :
    (preparedCfg cfg).dataset_prepared_path = cfg.dataset_prepared_path := by
  unfold preparedCfg defaultPathStep
  simp [h]

theorem preparedCfg_defaulted (cfg : RunConfig)
    (h : pyTruthy cfg.dataset_prepared_path = false) :
    (preparedCfg cfg).dataset_prepared_path = some DEFAULT_DATASET_PREPARED_PATH := by
  unfold preparedCfg defaultPathStep
  simp [h]

theorem conversionStep_not_csv (c : RunConfig) (w : World) (d : DatasetConfig)
    (rest : List DatasetConfig) (hd : c.datasets = d :: rest)
    (h : pyEndsWith d.path ".csv" = false) :
    conversionStep c w = ([], Except.ok c) := by
  unfold conversionStep
  rw [hd]
  by_cases hp : pyTruthy c.dataset_prepared_path <;> simp [hp, h]

theorem conversionStep_csv (c : RunConfig) (w : World) (d : DatasetConfig)
    (rest : List DatasetConfig) (hd : c.datasets = d :: rest)
    (hcsv : pyEndsWith d.path ".csv" = true)
    (hp : pyTruthy c.dataset_prepared_path = true)
    (hw : w.convertRaises = false) :
    conversionStep c w =
      ([Event.infoLog ("Converting " ++ d.path ++ " to " ++
          codeTargetPath (c.dataset_prepared_path.getD "") d.path ++ "..."),
        Event.convert d.path (codeTargetPath (c.dataset_prepared_path.getD "") d.path)],
       Except.ok { c with
        dataset_file := some (codeTargetPath (c.dataset_prepared_path.getD "") d.path) }) := by
  unfold conversionStep
  rw [hd]
  simp [hp, hcsv, hw]

theorem templateStep_filter_eq_nil (c : RunConfig) (p : Event → Bool)
    (h1 : ∀ m, p (Event.infoLog m) = false)
    (h2 : ∀ m, p (Event.registerChatml m) = false)
    (h3 : ∀ m, p (Event.registerLlama3 m) = false) :
    (templateStep c).filter p = [] := by
  unfold templateStep
  repeat' split
  all_goals simp [List.filter, h1, h2, h3]

theorem do_cli_loader_error (cfg : RunConfig) (cli : PreprocessCliArgs) (w : World)
    (hl : w.loaderRaises = true) :
    do_cli cfg cli w =
      (templateStep { cfg with is_preprocess := true } ++
        (defaultPathStep { cfg with is_preprocess := true }).1 ++
        [Event.disableCaching, loaderEvent (preparedCfg cfg), Event.enableCaching],
       Except.error ()) := by
  unfold do_cli
  simp [disable_datasets_caching, materializeBody_snd, materializeBody_fst, hl]

theorem do_cli_no_loader_error (cfg : RunConfig) (cli : PreprocessCliArgs) (w : World)
    (hl : w.loaderRaises = false) :
    do_cli cfg cli w =
      (match (conversionStep (preparedCfg cfg) w).2 with
       | .error e =>
           (templateStep { cfg with is_preprocess := true } ++
             (defaultPathStep { cfg with is_preprocess := true }).1 ++
             [Event.disableCaching, loaderEvent (preparedCfg cfg), Event.enableCaching] ++
             (conversionStep (preparedCfg cfg) w).1,
            Except.error e)
       | .ok c3 =>
           (templateStep { cfg with is_preprocess := true } ++
             (defaultPathStep { cfg with is_preprocess := true }).1 ++
             [Event.disableCaching, loaderEvent (preparedCfg cfg), Event.enableCaching] ++
             (conversionStep (preparedCfg cfg) w).1 ++
             (if cli.download then [Event.probeWeights c3.base_model] else []) ++
             [Event.successLog c3.dataset_prepared_path],
            Except.ok c3)) := by
  unfold do_cli
  cases hconv : (conversionStep (preparedCfg cfg) w).2 with
  | error e =>
      simp [disable_datasets_caching, materializeBody_snd, materializeBody_fst, hl, hconv]
  | ok c3 =>
      simp [disable_datasets_caching, materializeBody_snd, materializeBody_fst, hl, hconv,
        probeStep_fst, probeStep_snd]

theorem templateStep_filter_register (c : RunConfig) :
    (templateStep c).filter isRegisterEvent =
      (if c.chat_template == some "chatml" then
        [Event.registerChatml
          (if pyTruthy c.default_system_message then c.default_system_message else none)]
      else if c.chat_template == some "llama3" then
        [Event.registerLlama3
          (if pyTruthy c.default_system_message then c.default_system_message else none)]
      else []) := by
  unfold templateStep
  by_cases h1 : c.chat_template == some "chatml" <;>
    by_cases h2 : c.chat_template == some "llama3" <;>
      by_cases h3 : pyTruthy c.default_system_message <;>
        simp [h1, h2, h3, isRegisterEvent, List.filter]

theorem defaultPathStep_filter_eq_nil (c : RunConfig) (p : Event → Bool)
    (h : ∀ m, p (Event.warnLog m) = false) :
    ((defaultPathStep c).1).filter p = [] := by
  rw [defaultPathStep_fst]
  by_cases hb : pyTruthy c.dataset_prepared_path <;> simp [hb, List.filter, h]

theorem conversionStep_filter_eq_nil (c : RunConfig) (w : World) (p : Event → Bool)
    (h1 : ∀ m, p (Event.infoLog m) = false)
    (h2 : ∀ s t, p (Event.convert s t) = false) :
    ((conversionStep c w).1).filter p = [] := by
  unfold conversionStep
  repeat' split
  all_goals simp [List.filter, h1, h2]

theorem loaderEvent_preparedCfg (cfg : RunConfig) :
    loaderEvent (preparedCfg cfg) =
      if pyTruthy cfg.rl then Event.loadRLDatasets else Event.loadDatasets := by
  unfold loaderEvent
  rw [preparedCfg_rl]

theorem conversionStep_csv_fst (c : RunConfig) (w : World) (d : DatasetConfig)
    (rest : List DatasetConfig) (hd : c.datasets = d :: rest)
    (hcsv : pyEndsWith d.path ".csv" = true)
    (hp : pyTruthy c.dataset_prepared_path = true) :
    (conversionStep c w).1 =
      [Event.infoLog ("Converting " ++ d.path ++ " to " ++
          codeTargetPath (c.dataset_prepared_path.getD "") d.path ++ "..."),
        Event.convert d.path (codeTargetPath (c.dataset_prepared_path.getD "") d.path)] := by
  unfold conversionStep
  rw [hd]
  by_cases hw : w.convertRaises <;> simp [hp, hcsv, hw]

theorem conversionStep_ok_exists (c : RunConfig) (w : World) (d : DatasetConfig)
    (rest : List DatasetConfig) (hd : c.datasets = d :: rest)
    (hw : w.convertRaises = false) (hp : pyTruthy c.dataset_prepared_path = true) :
    ∃ c3, (conversionStep c w).2 = Except.ok c3 ∧
      c3.dataset_prepared_path = c.dataset_prepared_path ∧
      c3.base_model = c.base_model ∧ c3.datasets = c.datasets := by
  unfold conversionStep
  rw [hd]
  by_cases hcsv : pyEndsWith d.path ".csv" <;> simp [hp, hcsv, hw, hd]

theorem conversionStep_ok_prepared (c : RunConfig) (w : World) (c3 : RunConfig)
    (h : (conversionStep c w).2 = Except.ok c3) :
    c3.dataset_prepared_path = c.dataset_prepared_path ∧ c3.datasets = c.datasets := by
  unfold conversionStep at h
  repeat' split at h
  all_goals simp_all
  all_goals (subst h; exact ⟨rfl, rfl⟩)

theorem do_cli_filter_register (cfg : RunConfig) (cli : PreprocessCliArgs) (w : World) :
    (do_cli cfg cli w).1.filter isRegisterEvent =
      (templateStep { cfg with is_preprocess := true }).filter isRegisterEvent := by
  have hD := defaultPathStep_filter_eq_nil { cfg with is_preprocess := true } isRegisterEvent
    (fun _ => rfl)
  have hC := conversionStep_filter_eq_nil (preparedCfg cfg) w isRegisterEvent
    (fun _ => rfl) (fun _ _ => rfl)
  cases hl : w.loaderRaises with
  | true =>
      rw [do_cli_loader_error cfg cli w hl]
      by_cases hrl : pyTruthy cfg.rl <;>
        simp [List.filter_append, hD, loaderEvent_preparedCfg, hrl, List.filter, isRegisterEvent]
  | false =>
      rw [do_cli_no_loader_error cfg cli w hl]
      cases hconv : (conversionStep (preparedCfg cfg) w).2 with
      | error e =>
          by_cases hrl : pyTruthy cfg.rl <;>
            simp [List.filter_append, hD, hC, loaderEvent_preparedCfg, hrl,
              List.filter, isRegisterEvent]
      | ok c3 =>
          by_cases hrl : pyTruthy cfg.rl <;> by_cases hdl : cli.download <;>
            simp [List.filter_append, hD, hC, loaderEvent_preparedCfg, hrl, hdl,
              List.filter, isRegisterEvent]

/-! ## Claim theorems -/

/-- C4: dataset materialization dispatches branch-exclusively on the `rl`
flag: the trace of every run contains exactly one loader call, which is
`load_rl_datasets` when `rl` is truthy and `load_datasets` otherwise, and
that call sits between the caching-disable and caching-restore events of
the caching-suppression scope. -/
theorem loader_dispatch_exclusive (cfg : RunConfig) (cli : PreprocessCliArgs) (w : World) :
    (do_cli cfg cli w).1.filter isLoaderEvent =
      [if pyTruthy cfg.rl then Event.loadRLDatasets else Event.loadDatasets] ∧
    ∃ pre post, (do_cli cfg cli w).1 =
      pre ++ Event.disableCaching ::
        (if pyTruthy cfg.rl then Event.loadRLDatasets else Event.loadDatasets) ::
        Event.enableCaching :: post := by
  have hT := templateStep_filter_eq_nil { cfg with is_preprocess := true } isLoaderEvent
    (fun _ => rfl) (fun _ => rfl) (fun _ => rfl)
  have hD := defaultPathStep_filter_eq_nil { cfg with is_preprocess := true } isLoaderEvent
    (fun _ => rfl)
  cases hl : w.loaderRaises with
  | true =>
      rw [do_cli_loader_error cfg cli w hl]
      refine ⟨?_, templateStep { cfg with is_preprocess := true } ++
        (defaultPathStep { cfg with is_preprocess := true }).1, [], ?_⟩
      · by_cases hrl : pyTruthy cfg.rl <;>
          simp [List.filter_append, hT, hD, loaderEvent_preparedCfg, hrl, List.filter, isLoaderEvent]
      · rw [loaderEvent_preparedCfg]
  | false =>
      rw [do_cli_no_loader_error cfg cli w hl]
      have hC := conversionStep_filter_eq_nil (preparedCfg cfg) w isLoaderEvent
        (fun _ => rfl) (fun _ _ => rfl)
      cases hconv : (conversionStep (preparedCfg cfg) w).2 with
      | error e =>
          refine ⟨?_, templateStep { cfg with is_preprocess := true } ++
            (defaultPathStep { cfg with is_preprocess := true }).1,
            (conversionStep (preparedCfg cfg) w).1, ?_⟩
          · by_cases hrl : pyTruthy cfg.rl <;>
              simp [List.filter_append, hT, hD, hC, loaderEvent_preparedCfg, hrl,
                List.filter, isLoaderEvent]
          · rw [loaderEvent_preparedCfg]
            simp [List.append_assoc]
      | ok c3 =>
          refine ⟨?_, templateStep { cfg with is_preprocess := true } ++
            (defaultPathStep { cfg with is_preprocess := true }).1,
            (conversionStep (preparedCfg cfg) w).1 ++
              (if cli.download then [Event.probeWeights c3.base_model] else []) ++
              [Event.successLog c3.dataset_prepared_path], ?_⟩
          · by_cases hrl : pyTruthy cfg.rl <;> by_cases hdl : cli.download <;>
              simp [List.filter_append, hT, hD, hC, loaderEvent_preparedCfg, hrl, hdl,
                List.filter, isLoaderEvent]
          · rw [loaderEvent_preparedCfg]
            simp [List.append_assoc]

/-- C5: the dataset-materialization step runs inside the
caching-suppression scope: caching is disabled immediately before the
loader call and restored immediately after it, on every exit path — in
particular also in the run whose loader raises, where `do_cli` propagates
the error yet the trace still restores caching after the loader call. -/
theorem caching_restored_on_all_exit_paths (cfg : RunConfig) (cli : PreprocessCliArgs)
    (w : World) :
    (∃ pre post, (do_cli cfg cli w).1 =
        pre ++ Event.disableCaching ::
          (if pyTruthy cfg.rl then Event.loadRLDatasets else Event.loadDatasets) ::
          Event.enableCaching :: post) ∧
    (do_cli cfg cli { w with loaderRaises := true }).2 = Except.error () ∧
    (∃ pre post, (do_cli cfg cli { w with loaderRaises := true }).1 =
        pre ++ Event.disableCaching ::
          (if pyTruthy cfg.rl then Event.loadRLDatasets else Event.loadDatasets) ::
          Event.enableCaching :: post) := by
  refine ⟨?_, ?_, ?_⟩
  · cases hl : w.loaderRaises with
    | true =>
        rw [do_cli_loader_error cfg cli w hl]
        refine ⟨templateStep { cfg with is_preprocess := true } ++
          (defaultPathStep { cfg with is_preprocess := true }).1, [], ?_⟩
        rw [loaderEvent_preparedCfg]
    | false =>
        rw [do_cli_no_loader_error cfg cli w hl]
        cases hconv : (conversionStep (preparedCfg cfg) w).2 with
        | error e =>
            refine ⟨templateStep { cfg with is_preprocess := true } ++
              (defaultPathStep { cfg with is_preprocess := true }).1,
              (conversionStep (preparedCfg cfg) w).1, ?_⟩
            simp [loaderEvent_preparedCfg, List.append_assoc]
        | ok c3 =>
            refine ⟨templateStep { cfg with is_preprocess := true } ++
              (defaultPathStep { cfg with is_preprocess := true }).1,
              (conversionStep (preparedCfg cfg) w).1 ++
                (if cli.download then [Event.probeWeights c3.base_model] else []) ++
                [Event.successLog c3.dataset_prepared_path], ?_⟩
            simp [loaderEvent_preparedCfg, List.append_assoc]
  · rw [do_cli_loader_error cfg cli { w with loaderRaises := true } rfl]
  · rw [do_cli_loader_error cfg cli { w with loaderRaises := true } rfl]
    refine ⟨templateStep { cfg with is_preprocess := true } ++
      (defaultPathStep { cfg with is_preprocess := true }).1, [], ?_⟩
    rw [loaderEvent_preparedCfg]

/-- C9: when the `download` CLI flag is false, the weight-resolution probe
is never invoked: no probe event occurs anywhere in the run's trace. -/
theorem no_probe_without_download (cfg : RunConfig) (w : World) :
    ((do_cli cfg ⟨false⟩ w).1.filter isProbeEvent) = [] := by
  have hT := templateStep_filter_eq_nil { cfg with is_preprocess := true } isProbeEvent
    (fun _ => rfl) (fun _ => rfl) (fun _ => rfl)
  have hD := defaultPathStep_filter_eq_nil { cfg with is_preprocess := true } isProbeEvent
    (fun _ => rfl)
  have hC := conversionStep_filter_eq_nil (preparedCfg cfg) w isProbeEvent
    (fun _ => rfl) (fun _ _ => rfl)
  cases hl : w.loaderRaises with
  | true =>
      rw [do_cli_loader_error cfg ⟨false⟩ w hl]
      by_cases hrl : pyTruthy cfg.rl <;>
        simp [List.filter_append, hT, hD, loaderEvent_preparedCfg, hrl, List.filter, isProbeEvent]
  | false =>
      rw [do_cli_no_loader_error cfg ⟨false⟩ w hl]
      cases hconv : (conversionStep (preparedCfg cfg) w).2 with
      | error e =>
          by_cases hrl : pyTruthy cfg.rl <;>
            simp [List.filter_append, hT, hD, hC, loaderEvent_preparedCfg, hrl,
              List.filter, isProbeEvent]
      | ok c3 =>
          by_cases hrl : pyTruthy cfg.rl <;>
            simp [List.filter_append, hT, hD, hC, loaderEvent_preparedCfg, hrl,
              List.filter, isProbeEvent]

/-- C8 counterexample: with `chat_template = "chatml"` and
`default_system_message` present but equal to the empty string, the
registration is invoked with no message — not with the present (empty)
message as the claim's "passing default_system_message when it is
present" requires. -/
theorem template_dispatch_present_counterexample :
    (do_cli cfgChatmlEmptyMsg ⟨false⟩ calmWorld).1.filter isRegisterEvent =
      [Event.registerChatml none] ∧
    (do_cli cfgChatmlEmptyMsg ⟨false⟩ calmWorld).1.filter isRegisterEvent ≠
      [Event.registerChatml cfgChatmlEmptyMsg.default_system_message] ∧
    cfgChatmlEmptyMsg.default_system_message = some "" := by
  refine ⟨by decide, by decide, rfl⟩

/-- C8 (amended): template registration dispatches by exact string match
on `chat_template`: `"chatml"` yields exactly one chatml registration,
`"llama3"` exactly one llama3 registration, in each case passing
`default_system_message` when it is truthy (present and non-empty) and no
message otherwise; any other `chat_template` value yields no registration
call at all. -/
theorem template_dispatch (cfg : RunConfig) (cli : PreprocessCliArgs) (w : World) :
    (do_cli cfg cli w).1.filter isRegisterEvent =
      (if cfg.chat_template == some "chatml" then
        [Event.registerChatml
          (if pyTruthy cfg.default_system_message then cfg.default_system_message else none)]
      else if cfg.chat_template == some "llama3" then
        [Event.registerLlama3
          (if pyTruthy cfg.default_system_message then cfg.default_system_message else none)]
      else []) := by
  rw [do_cli_filter_register, templateStep_filter_register]

/-- C10: an empty `default_system_message` is treated exactly like an
absent one: the coordinator tests the message for truthiness, not
presence, so with `chat_template` equal to `"chatml"` or `"llama3"` the
registration is called with no message argument, and the registration
block behaves identically to the run with the message absent. -/
theorem empty_system_message_like_absent (cfg : RunConfig) (cli : PreprocessCliArgs)
    (w : World)
    (h : cfg.chat_template = some "chatml" ∨ cfg.chat_template = some "llama3") :
    templateStep { cfg with default_system_message := some "" } =
      templateStep { cfg with default_system_message := none } ∧
    (do_cli { cfg with default_system_message := some "" } cli w).1.filter isRegisterEvent =
      (if cfg.chat_template = some "chatml" then [Event.registerChatml none]
       else [Event.registerLlama3 none]) := by
  constructor
  · unfold templateStep
    by_cases h1 : cfg.chat_template == some "chatml" <;>
      by_cases h2 : cfg.chat_template == some "llama3" <;>
        simp [h1, h2, pyTruthy]
  · rw [do_cli_filter_register, templateStep_filter_register]
    rcases h with hct | hct <;> simp [hct, pyTruthy]

/-- C10 witness: instantiation at a concrete chatml configuration with an
empty default system message. -/
theorem empty_system_message_like_absent_witness :
    (cfgChatmlEmptyMsg.chat_template = some "chatml" ∨
      cfgChatmlEmptyMsg.chat_template = some "llama3") ∧
    (templateStep { cfgChatmlEmptyMsg with default_system_message := some "" } =
      templateStep { cfgChatmlEmptyMsg with default_system_message := none } ∧
    (do_cli { cfgChatmlEmptyMsg with default_system_message := some "" }
        ⟨false⟩ calmWorld).1.filter isRegisterEvent =
      (if cfgChatmlEmptyMsg.chat_template = some "chatml" then [Event.registerChatml none]
       else [Event.registerLlama3 none])) :=
  ⟨Or.inl rfl,
   empty_system_message_like_absent cfgChatmlEmptyMsg ⟨false⟩ calmWorld (Or.inl rfl)⟩

/-- C6: when the input config's `dataset_prepared_path` is empty (absent
or `""`), the coordinator assigns the default constant and records a
warning rather than raising, so the prepared path is non-empty by the
time dataset materialization begins, and a successful run's final config
carries the default. -/
theorem default_path_filled (cfg : RunConfig) (cli : PreprocessCliArgs) (w : World)
    (h : pyTruthy cfg.dataset_prepared_path = false) :
    (preparedCfg cfg).dataset_prepared_path = some DEFAULT_DATASET_PREPARED_PATH ∧
    pyTruthy (preparedCfg cfg).dataset_prepared_path = true ∧
    (∃ m, Event.warnLog m ∈ (do_cli cfg cli w).1) ∧
    (∀ c, (do_cli cfg cli w).2 = Except.ok c →
        c.dataset_prepared_path = some DEFAULT_DATASET_PREPARED_PATH) := by
  refine ⟨preparedCfg_defaulted cfg h, preparedCfg_truthy cfg, ?_, ?_⟩
  · refine ⟨"preprocess CLI called without dataset_prepared_path set, using default path: " ++
      DEFAULT_DATASET_PREPARED_PATH, ?_⟩
    cases hl : w.loaderRaises with
    | true =>
        rw [do_cli_loader_error cfg cli w hl]
        simp [defaultPathStep_fst, h]
    | false =>
        rw [do_cli_no_loader_error cfg cli w hl]
        cases hconv : (conversionStep (preparedCfg cfg) w).2 with
        | error e => simp [defaultPathStep_fst, h]
        | ok c3 => simp [defaultPathStep_fst, h]
  · intro c hc
    cases hl : w.loaderRaises with
    | true =>
        rw [do_cli_loader_error cfg cli w hl] at hc
        simp at hc
    | false =>
        rw [do_cli_no_loader_error cfg cli w hl] at hc
        cases hconv : (conversionStep (preparedCfg cfg) w).2 with
        | error e =>
            rw [hconv] at hc
            simp at hc
        | ok c3 =>
            rw [hconv] at hc
            simp at hc
            rcases conversionStep_ok_prepared (preparedCfg cfg) w c3 hconv with ⟨hp3, _⟩
            rw [← hc, hp3, preparedCfg_defaulted cfg h]

/-- C6 witness: instantiation at a concrete config with no prepared path. -/
theorem default_path_filled_witness :
    pyTruthy cfgNoPrepared.dataset_prepared_path = false ∧
    ((preparedCfg cfgNoPrepared).dataset_prepared_path = some DEFAULT_DATASET_PREPARED_PATH ∧
     pyTruthy (preparedCfg cfgNoPrepared).dataset_prepared_path = true ∧
     (∃ m, Event.warnLog m ∈ (do_cli cfgNoPrepared ⟨false⟩ calmWorld).1) ∧
     (∀ c, (do_cli cfgNoPrepared ⟨false⟩ calmWorld).2 = Except.ok c →
        c.dataset_prepared_path = some DEFAULT_DATASET_PREPARED_PATH)) :=
  ⟨by decide, default_path_filled cfgNoPrepared ⟨false⟩ calmWorld (by decide)⟩

/-- C7: when the first configured dataset's path does not end in `.csv`,
the converter is never invoked (no convert event occurs in the trace) and
a successful run leaves the config's dataset path fields — the `datasets`
descriptors and `dataset_file` — unmodified. -/
theorem no_conversion_when_not_csv (cfg : RunConfig) (cli : PreprocessCliArgs) (w : World)
    (d : DatasetConfig) (rest : List DatasetConfig)
    (hd : cfg.datasets = d :: rest) (hcsv : pyEndsWith d.path ".csv" = false) :
    (do_cli cfg cli w).1.filter isConvertEvent = [] ∧
    (∀ c, (do_cli cfg cli w).2 = Except.ok c →
        c.datasets = cfg.datasets ∧ c.dataset_file = cfg.dataset_file) := by
  have hd' : (preparedCfg cfg).datasets = d :: rest := by rw [preparedCfg_datasets, hd]
  have hnc := conversionStep_not_csv (preparedCfg cfg) w d rest hd' hcsv
  have hnc2 : (conversionStep (preparedCfg cfg) w).2 = Except.ok (preparedCfg cfg) := by
    rw [hnc]
  have hT := templateStep_filter_eq_nil { cfg with is_preprocess := true } isConvertEvent
    (fun _ => rfl) (fun _ => rfl) (fun _ => rfl)
  have hD := defaultPathStep_filter_eq_nil { cfg with is_preprocess := true } isConvertEvent
    (fun _ => rfl)
  constructor
  · cases hl : w.loaderRaises with
    | true =>
        rw [do_cli_loader_error cfg cli w hl]
        by_cases hrl : pyTruthy cfg.rl <;>
          simp [List.filter_append, hT, hD, loaderEvent_preparedCfg, hrl,
            List.filter, isConvertEvent]
    | false =>
        rw [do_cli_no_loader_error cfg cli w hl, hnc2]
        by_cases hrl : pyTruthy cfg.rl <;> by_cases hdl : cli.download <;>
          simp [List.filter_append, hT, hD, hnc, loaderEvent_preparedCfg, hrl, hdl,
            List.filter, isConvertEvent]
  · intro c hc
    cases hl : w.loaderRaises with
    | true =>
        rw [do_cli_loader_error cfg cli w hl] at hc
        simp at hc
    | false =>
        rw [do_cli_no_loader_error cfg cli w hl, hnc2] at hc
        simp at hc
        rw [← hc, preparedCfg_datasets, preparedCfg_dataset_file]
        exact ⟨rfl, rfl⟩

/-- C7 witness: instantiation at a concrete config whose first dataset is
a `.jsonl` file. -/
theorem no_conversion_when_not_csv_witness :
    cfgNoPrepared.datasets = ⟨"train.jsonl"⟩ :: [] ∧
    pyEndsWith ("train.jsonl" : String) ".csv" = false ∧
    ((do_cli cfgNoPrepared ⟨true⟩ calmWorld).1.filter isConvertEvent = [] ∧
     (∀ c, (do_cli cfgNoPrepared ⟨true⟩ calmWorld).2 = Except.ok c →
        c.datasets = cfgNoPrepared.datasets ∧ c.dataset_file = cfgNoPrepared.dataset_file)) :=
  ⟨rfl, by decide,
   no_conversion_when_not_csv cfgNoPrepared ⟨true⟩ calmWorld ⟨"train.jsonl"⟩ [] rfl (by decide)⟩

/-- C1 counterexample: on a run whose first dataset is `train.csv`, the
conversion step runs and sets `dataset_file` to the JSONL artifact, yet
the final config's `datasets[0].path` still names the pre-conversion CSV
file — a config field naming the active dataset source does not refer to
the `.jsonl` artifact. -/
theorem csv_reference_remains_counterexample :
    (do_cli cfgCsv ⟨false⟩ calmWorld).2 =
      Except.ok { cfgCsv with is_preprocess := true, dataset_file := some "prep/train.jsonl" } ∧
    ({ cfgCsv with is_preprocess := true, dataset_file := some "prep/train.jsonl" } :
        RunConfig).datasets = [⟨"train.csv"⟩] ∧
    pyEndsWith ("train.csv" : String) ".csv" = true := by
  refine ⟨by decide, rfl, by decide⟩

/-- C1 (amended): after the conversion step of a run whose first dataset
path ends in `.csv`, the run configuration's `dataset_file` field is
updated to the JSON-lines artifact path, while the `datasets` descriptors
are left unchanged — so `datasets[0].path` still references the
pre-conversion CSV file. -/
theorem csv_conversion_updates_dataset_file (cfg : RunConfig) (cli : PreprocessCliArgs)
    (w : World) (d : DatasetConfig) (rest : List DatasetConfig)
    (hd : cfg.datasets = d :: rest) (hcsv : pyEndsWith d.path ".csv" = true)
    (hl : w.loaderRaises = false) (hc : w.convertRaises = false) :
    ∃ c, (do_cli cfg cli w).2 = Except.ok c ∧
      c.dataset_file =
        some (codeTargetPath ((preparedCfg cfg).dataset_prepared_path.getD "") d.path) ∧
      c.datasets = cfg.datasets := by
  have hd' : (preparedCfg cfg).datasets = d :: rest := by rw [preparedCfg_datasets, hd]
  have hcv := conversionStep_csv (preparedCfg cfg) w d rest hd' hcsv (preparedCfg_truthy cfg) hc
  have h2 : (conversionStep (preparedCfg cfg) w).2 =
      Except.ok
        { preparedCfg cfg with
          dataset_file := some (codeTargetPath ((preparedCfg cfg).dataset_prepared_path.getD "") d.path) } := by
    rw [hcv]
  rw [do_cli_no_loader_error cfg cli w hl, h2]
  refine ⟨_, rfl, rfl, ?_⟩
  exact preparedCfg_datasets cfg

/-- C1 witness: instantiation of the amended claim at a concrete CSV
configuration. -/
theorem csv_conversion_updates_dataset_file_witness :
    cfgCsv.datasets = ⟨"train.csv"⟩ :: [] ∧
    pyEndsWith ("train.csv" : String) ".csv" = true ∧
    calmWorld.loaderRaises = false ∧ calmWorld.convertRaises = false ∧
    (∃ c, (do_cli cfgCsv ⟨false⟩ calmWorld).2 = Except.ok c ∧
      c.dataset_file =
        some (codeTargetPath ((preparedCfg cfgCsv).dataset_prepared_path.getD "")
          (⟨"train.csv"⟩ : DatasetConfig).path) ∧
      c.datasets = cfgCsv.datasets) :=
  ⟨rfl, by decide, rfl, rfl,
   csv_conversion_updates_dataset_file cfgCsv ⟨false⟩ calmWorld ⟨"train.csv"⟩ [] rfl
     (by decide) rfl rfl⟩

/-- C2 counterexample: for the source path `data/train.csv` under
`dataset_prepared_path = "prep"`, the code's conversion target is
`prep/data/train.jsonl` — the full source path with its extension
replaced — whereas the claimed stem-based target is `prep/train.jsonl`;
the two differ. -/
theorem conversion_target_not_stem_counterexample :
    (do_cli cfgCsvSubdir ⟨false⟩ calmWorld).1.filter isConvertEvent =
      [Event.convert "data/train.csv" "prep/data/train.jsonl"] ∧
    specTargetPath "prep" "data/train.csv" = "prep/train.jsonl" ∧
    ("prep/data/train.jsonl" : String) ≠ specTargetPath "prep" "data/train.csv" := by
  refine ⟨by decide, by decide, by decide⟩

/-- C2 (amended): the conversion target path is derived deterministically
from the source path as `dataset_prepared_path + "/" + (source path with
everything from its last dot removed, directory components retained) +
".jsonl"`; it coincides with the stem-based path only when the source
path has no directory component. -/
theorem conversion_target_path (cfg : RunConfig) (cli : PreprocessCliArgs) (w : World)
    (d : DatasetConfig) (rest : List DatasetConfig)
    (hd : cfg.datasets = d :: rest) (hcsv : pyEndsWith d.path ".csv" = true)
    (hl : w.loaderRaises = false) :
    (do_cli cfg cli w).1.filter isConvertEvent =
      [Event.convert d.path
        ((preparedCfg cfg).dataset_prepared_path.getD "" ++ "/" ++
          pyRsplitDotFirst d.path ++ ".jsonl")] := by
  have hd' : (preparedCfg cfg).datasets = d :: rest := by rw [preparedCfg_datasets, hd]
  have hcf := conversionStep_csv_fst (preparedCfg cfg) w d rest hd' hcsv (preparedCfg_truthy cfg)
  have hT := templateStep_filter_eq_nil { cfg with is_preprocess := true } isConvertEvent
    (fun _ => rfl) (fun _ => rfl) (fun _ => rfl)
  have hD := defaultPathStep_filter_eq_nil { cfg with is_preprocess := true } isConvertEvent
    (fun _ => rfl)
  rw [do_cli_no_loader_error cfg cli w hl]
  cases hconv : (conversionStep (preparedCfg cfg) w).2 with
  | error e =>
      by_cases hrl : pyTruthy cfg.rl <;>
        simp [List.filter_append, hT, hD, hcf, loaderEvent_preparedCfg, hrl,
          List.filter, isConvertEvent, codeTargetPath]
  | ok c3 =>
      by_cases hrl : pyTruthy cfg.rl <;> by_cases hdl : cli.download <;>
        simp [List.filter_append, hT, hD, hcf, loaderEvent_preparedCfg, hrl, hdl,
          List.filter, isConvertEvent, codeTargetPath]

/-- C2 witness: instantiation of the amended claim at the concrete
subdirectory CSV configuration. -/
theorem conversion_target_path_witness :
    cfgCsvSubdir.datasets = ⟨"data/train.csv"⟩ :: [] ∧
    pyEndsWith ("data/train.csv" : String) ".csv" = true ∧
    calmWorld.loaderRaises = false ∧
    (do_cli cfgCsvSubdir ⟨false⟩ calmWorld).1.filter isConvertEvent =
      [Event.convert (⟨"data/train.csv"⟩ : DatasetConfig).path
        ((preparedCfg cfgCsvSubdir).dataset_prepared_path.getD "" ++ "/" ++
          pyRsplitDotFirst (⟨"data/train.csv"⟩ : DatasetConfig).path ++ ".jsonl")] :=
  ⟨rfl, by decide, rfl,
   conversion_target_path cfgCsvSubdir ⟨false⟩ calmWorld ⟨"data/train.csv"⟩ [] rfl
     (by decide) rfl⟩

/-- C3: with `download = true`, an error raised by the weight-resolution
probe is suppressed: the run still completes successfully, the probe call
does occur in the trace, and the trace ends with the terminal success
report naming the resolved `dataset_prepared_path`. -/
theorem download_probe_error_suppressed (cfg : RunConfig) (w : World)
    (d : DatasetConfig) (rest : List DatasetConfig)
    (hd : cfg.datasets = d :: rest) (hl : w.loaderRaises = false)
    (hc : w.convertRaises = false) (hp : w.probeRaises = true) :
    ∃ c, (do_cli cfg ⟨true⟩ w).2 = Except.ok c ∧
      Event.probeWeights cfg.base_model ∈ (do_cli cfg ⟨true⟩ w).1 ∧
      (∃ pre, (do_cli cfg ⟨true⟩ w).1 =
        pre ++ [Event.successLog c.dataset_prepared_path]) := by
  have hd' : (preparedCfg cfg).datasets = d :: rest := by rw [preparedCfg_datasets, hd]
  rcases conversionStep_ok_exists (preparedCfg cfg) w d rest hd' hc (preparedCfg_truthy cfg)
    with ⟨c3, hconv, _, hbm, _⟩
  rw [do_cli_no_loader_error cfg ⟨true⟩ w hl, hconv]
  refine ⟨c3, rfl, ?_, ?_⟩
  · have hbm' : c3.base_model = cfg.base_model := by rw [hbm, preparedCfg_base_model]
    simp [List.mem_append, hbm']
  · refine ⟨templateStep { cfg with is_preprocess := true } ++
      (defaultPathStep { cfg with is_preprocess := true }).1 ++
      [Event.disableCaching, loaderEvent (preparedCfg cfg), Event.enableCaching] ++
      (conversionStep (preparedCfg cfg) w).1 ++ [Event.probeWeights c3.base_model], ?_⟩
    simp [List.append_assoc]

/-- C3 witness: instantiation at a concrete CSV configuration with a
raising weight probe. -/
theorem download_probe_error_suppressed_witness :
    cfgCsv.datasets = ⟨"train.csv"⟩ :: [] ∧
    probeFailWorld.loaderRaises = false ∧ probeFailWorld.convertRaises = false ∧
    probeFailWorld.probeRaises = true ∧
    (∃ c, (do_cli cfgCsv ⟨true⟩ probeFailWorld).2 = Except.ok c ∧
      Event.probeWeights cfgCsv.base_model ∈ (do_cli cfgCsv ⟨true⟩ probeFailWorld).1 ∧
      (∃ pre, (do_cli cfgCsv ⟨true⟩ probeFailWorld).1 =
        pre ++ [Event.successLog c.dataset_prepared_path])) :=
  ⟨rfl, rfl, rfl, rfl,
   download_probe_error_suppressed cfgCsv probeFailWorld ⟨"train.csv"⟩ [] rfl rfl rfl rfl⟩

end Axolotl
